import Mathlib

/-!
Verification of the smbios-lib windows envelope decoder and structure type
dispatch, via a shallow embedding of the two source files
`src/windows/win_struct.rs` and `src/structs/struct_type.rs`.

Bytes are modelled as natural numbers; every read that depends on the 8-bit
width reduces the value modulo 256, so actual `u8` values (all below 256) are
represented exactly.  Rust operations that can panic (slice indexing with
`[i]`, `slice.get(range).unwrap()`, `try_into().expect(..)`) are modelled with
`Option`, where `none` stands for a panic.
-/

namespace SmbiosLib

/-- A byte of the raw firmware buffer, modelled as a natural number. -/
abbrev Byte := Nat

/-- Rust `slice.get(lo..hi)`: `some` of the subslice when the range is in
bounds, `none` otherwise. -/
def sliceGet (l : List Byte) (lo hi : Nat) : Option (List Byte) :=
  if lo ≤ hi ∧ hi ≤ l.length then some ((l.drop lo).take (hi - lo)) else none

/-- `u32::from_le_bytes` on a 4-byte slice: little-endian base-256 value.
Each byte is reduced modulo 256, reflecting the `u8` width. -/
def u32_from_le_bytes (s : List Byte) : Nat :=
  match s with
  | [b0, b1, b2, b3] =>
      b0 % 256 + (b1 % 256) * 256 + (b2 % 256) * 65536 + (b3 % 256) * 16777216
  | _ => 0

/-- The `slice.try_into().expect(..)` step followed by `u32::from_le_bytes`:
succeeds exactly when the slice has 4 elements (`none` models the panic). -/
def u32_from_le_bytes_checked (s : List Byte) : Option Nat :=
  match s with
  | [b0, b1, b2, b3] =>
      some (b0 % 256 + (b1 % 256) * 256 + (b2 % 256) * 65536 + (b3 % 256) * 16777216)
  | _ => none

/-- `SMBiosVersion { major, minor, revision }` (fields are `u8`). -/
structure SMBiosVersion where
  major : Byte
  minor : Byte
  revision : Byte
  deriving DecidableEq

/-- Modelled from the spec: the `SMBiosData` structure-table holder built by
`SMBiosData::from_vec_and_version` is not among the sources under
verification; the spec describes it as a table of bytes carried together with
an optional version, so it is modelled as the record of the constructor's
two arguments. -/
structure SMBiosData where
  table : List Byte
  version : Option SMBiosVersion
  deriving DecidableEq

/-- `SMBiosData::from_vec_and_version(data, version)`. -/
def SMBiosData.from_vec_and_version (data : List Byte) (version : Option SMBiosVersion) :
    SMBiosData :=
  ⟨data, version⟩

/-- `WinSMBiosData`: the 8-byte windows header kept verbatim, plus the wrapped
SMBIOS table data. -/
structure WinSMBiosData where
  windows_header : List Byte
  smbios_data : SMBiosData
  deriving DecidableEq

namespace WinSMBiosData

/-- Offset of the Used20CallingMethod field (0). -/
def USED20_CALLING_METHOD_OFFSET : Nat := 0

/-- Offset of the SMBIOSMajorVersion field (1). -/
def SMBIOS_MAJOR_VERSION_OFFSET : Nat := 1

/-- Offset of the SMBIOSMinorVersion field (2). -/
def SMBIOS_MINOR_VERSION_OFFSET : Nat := 2

/-- Offset of the DMIRevision field (3). -/
def DMI_REVISION_OFFSET : Nat := 3

/-- Offset of the Length field (4). -/
def TABLE_DATA_LENGTH_OFFSET : Nat := 4

/-- Offset of the SMBIOSTableData field (8). -/
def SMBIOS_TABLE_DATA_OFFSET : Nat := 8

/-- `WinSMBiosData::is_valid_win_smbios_data`, with the panic paths kept
explicit: `none` models a panic of `unwrap`/`expect`, `some b` the returned
boolean.  Mirrors the source: early `false` return when
`length <= SMBIOS_TABLE_DATA_OFFSET`, then the `get(4..8).unwrap()` slice
read, the `try_into` conversion and the final length comparison. -/
def is_valid_win_smbios_data_checked (raw_data : List Byte) : Option Bool :=
  let length := raw_data.length
  if length ≤ SMBIOS_TABLE_DATA_OFFSET then
    some false
  else
    match sliceGet raw_data TABLE_DATA_LENGTH_OFFSET (TABLE_DATA_LENGTH_OFFSET + 4) with
    | none => none
    | some slice =>
      match u32_from_le_bytes_checked slice with
      | none => none
      | some table_data_length =>
        some (table_data_length == length - SMBIOS_TABLE_DATA_OFFSET)

/-- `WinSMBiosData::is_valid_win_smbios_data` as the boolean the source
returns (the panic branch is unreachable, as proved below). -/
def is_valid_win_smbios_data (raw_data : List Byte) : Bool :=
  (is_valid_win_smbios_data_checked raw_data).getD false

/-- `WinSMBiosData::version_from_raw_header`: reads bytes 1, 2, 3 of the
windows header (indexing a too-short header would panic in Rust; the header
built by `new` always has 8 bytes). -/
def version_from_raw_header (windows_header : List Byte) : SMBiosVersion :=
  { major := windows_header.getD SMBIOS_MAJOR_VERSION_OFFSET 0
    minor := windows_header.getD SMBIOS_MINOR_VERSION_OFFSET 0
    revision := windows_header.getD DMI_REVISION_OFFSET 0 }

/-- `WinSMBiosData::new`: validity check, then split the buffer into the
8-byte windows header and the SMBIOS table payload at offset 8, deriving the
version from the header.  The `io::Error` of the source is modelled by its
message string. -/
def new (raw_smbios_data : List Byte) : Except String WinSMBiosData :=
  if ¬ is_valid_win_smbios_data raw_smbios_data then
    Except.error "Invalid WinSMBiosData structure"
  else
    let windows_header := raw_smbios_data.take SMBIOS_TABLE_DATA_OFFSET
    let version := version_from_raw_header windows_header
    Except.ok
      { windows_header := windows_header
        smbios_data :=
          SMBiosData.from_vec_and_version
            (raw_smbios_data.drop SMBIOS_TABLE_DATA_OFFSET) (some version) }

/-- `WinSMBiosData::raw_smbios_data`: returns the stored `windows_header`
slice. -/
def raw_smbios_data (w : WinSMBiosData) : List Byte :=
  w.windows_header

/-- `WinSMBiosData::used20_calling_method`: indexes byte 0 of the stored
header; `none` models the panic of out-of-bounds indexing. -/
def used20_calling_method (w : WinSMBiosData) : Option Byte :=
  w.windows_header[USED20_CALLING_METHOD_OFFSET]?

/-- `WinSMBiosData::smbios_major_version`: indexes byte 1 of the stored
header. -/
def smbios_major_version (w : WinSMBiosData) : Option Byte :=
  w.windows_header[SMBIOS_MAJOR_VERSION_OFFSET]?

/-- `WinSMBiosData::smbios_minor_version`: indexes byte 2 of the stored
header. -/
def smbios_minor_version (w : WinSMBiosData) : Option Byte :=
  w.windows_header[SMBIOS_MINOR_VERSION_OFFSET]?

/-- `WinSMBiosData::dmi_revision`: indexes byte 3 of the stored header. -/
def dmi_revision (w : WinSMBiosData) : Option Byte :=
  w.windows_header[DMI_REVISION_OFFSET]?

/-- `WinSMBiosData::table_data_length`: reads the little-endian `u32` at
bytes 4..8 of the stored header; `none` models the panic paths
(`unwrap`/`expect`). -/
def table_data_length (w : WinSMBiosData) : Option Nat :=
  match sliceGet w.windows_header TABLE_DATA_LENGTH_OFFSET (TABLE_DATA_LENGTH_OFFSET + 4) with
  | none => none
  | some slice => u32_from_le_bytes_checked slice

end WinSMBiosData

/-- Whether an `Except` result is an error. -/
def isErr {ε α : Type} : Except ε α → Bool
  | Except.error _ => true
  | Except.ok _ => false

/-- Modelled from the spec: the 4-byte structure header
`{ type, length, handle }` exposed by `SMBiosStructParts::header`
(`struct_type` is the 1-byte discriminant, `length` the 1-byte formatted-area
length, `handle` the 2-byte little-endian identifier). -/
structure Header where
  struct_type : Byte
  length : Byte
  handle : Nat
  deriving DecidableEq

/-- Modelled from the spec: `SMBiosStructParts` (the spec's `StructureSpan`),
one bounded structure record: its header plus its raw bytes.  Its definition
is not among the sources under verification; the type dispatch in
`struct_type.rs` consults only `parts.header.struct_type()`. -/
structure SMBiosStructParts where
  header : Header
  data : List Byte
  deriving DecidableEq

/-- `DefinedStruct`: the closed sum over the known SMBIOS structure kinds
plus the `Unknown` fallback.  In the source each variant wraps a typed view
`SMBiosXxx::new(parts)` over the same `SMBiosStructParts`; those view types
are not among the sources under verification and per the spec each is a
wrapper around the span, so every variant here carries the
`SMBiosStructParts` directly. -/
inductive DefinedStruct where
  | Information : SMBiosStructParts → DefinedStruct
  | SystemInformation : SMBiosStructParts → DefinedStruct
  | BaseBoardInformation : SMBiosStructParts → DefinedStruct
  | SystemChassisInformation : SMBiosStructParts → DefinedStruct
  | ProcessorInformation : SMBiosStructParts → DefinedStruct
  | MemoryControllerInformation : SMBiosStructParts → DefinedStruct
  | MemoryModuleInformation : SMBiosStructParts → DefinedStruct
  | CacheInformation : SMBiosStructParts → DefinedStruct
  | PortConnectorInformation : SMBiosStructParts → DefinedStruct
  | SystemSlot : SMBiosStructParts → DefinedStruct
  | OnBoardDeviceInformation : SMBiosStructParts → DefinedStruct
  | OemStrings : SMBiosStructParts → DefinedStruct
  | SystemConfigurationOptions : SMBiosStructParts → DefinedStruct
  | LanguageInformation : SMBiosStructParts → DefinedStruct
  | GroupAssociations : SMBiosStructParts → DefinedStruct
  | EventLog : SMBiosStructParts → DefinedStruct
  | PhysicalMemoryArray : SMBiosStructParts → DefinedStruct
  | MemoryDevice : SMBiosStructParts → DefinedStruct
  | MemoryErrorInformation32Bit : SMBiosStructParts → DefinedStruct
  | MemoryArrayMappedAddress : SMBiosStructParts → DefinedStruct
  | MemoryDeviceMappedAddress : SMBiosStructParts → DefinedStruct
  | BuiltInPointingDevice : SMBiosStructParts → DefinedStruct
  | PortableBattery : SMBiosStructParts → DefinedStruct
  | SystemReset : SMBiosStructParts → DefinedStruct
  | HardwareSecurity : SMBiosStructParts → DefinedStruct
  | SystemPowerControls : SMBiosStructParts → DefinedStruct
  | VoltageProbe : SMBiosStructParts → DefinedStruct
  | CoolingDevice : SMBiosStructParts → DefinedStruct
  | TemperatureProbe : SMBiosStructParts → DefinedStruct
  | ElectricalCurrentProbe : SMBiosStructParts → DefinedStruct
  | OutOfBandRemoteAccess : SMBiosStructParts → DefinedStruct
  | BisEntryPoint : SMBiosStructParts → DefinedStruct
  | SystemBootInformation : SMBiosStructParts → DefinedStruct
  | MemoryErrorInformation64Bit : SMBiosStructParts → DefinedStruct
  | ManagementDevice : SMBiosStructParts → DefinedStruct
  | ManagementDeviceComponent : SMBiosStructParts → DefinedStruct
  | ManagementDeviceThresholdData : SMBiosStructParts → DefinedStruct
  | MemoryChannel : SMBiosStructParts → DefinedStruct
  | IpmiDeviceInformation : SMBiosStructParts → DefinedStruct
  | SystemPowerSupply : SMBiosStructParts → DefinedStruct
  | AdditionalInformation : SMBiosStructParts → DefinedStruct
  | OnboardDevicesExtendedInformation : SMBiosStructParts → DefinedStruct
  | ManagementControllerHostInterface : SMBiosStructParts → DefinedStruct
  | TpmDevice : SMBiosStructParts → DefinedStruct
  | ProcessorAdditionalInformation : SMBiosStructParts → DefinedStruct
  | Inactive : SMBiosStructParts → DefinedStruct
  | EndOfTable : SMBiosStructParts → DefinedStruct
  | Unknown : SMBiosStructParts → DefinedStruct
  deriving DecidableEq

namespace DefinedStruct

/-- The dispatch on the type discriminant performed by
`impl From<&SMBiosStructParts> for DefinedStruct` in `struct_type.rs`.  The
source matches the discriminant against the `STRUCT_TYPE` constant of each
view type; those constants are not among the sources under verification and
are modelled from the spec and the source doc comments: 0 through 44 for the
named kinds in declaration order, 126 for `Inactive`, 127 for `EndOfTable`.
The Rust `match` on disjoint constants is embedded as a chain of equality
tests. -/
def dispatch (t : Byte) (parts : SMBiosStructParts) : DefinedStruct :=
  if t = 0 then .Information parts
  else if t = 1 then .SystemInformation parts
  else if t = 2 then .BaseBoardInformation parts
  else if t = 3 then .SystemChassisInformation parts
  else if t = 4 then .ProcessorInformation parts
  else if t = 5 then .MemoryControllerInformation parts
  else if t = 6 then .MemoryModuleInformation parts
  else if t = 7 then .CacheInformation parts
  else if t = 8 then .PortConnectorInformation parts
  else if t = 9 then .SystemSlot parts
  else if t = 10 then .OnBoardDeviceInformation parts
  else if t = 11 then .OemStrings parts
  else if t = 12 then .SystemConfigurationOptions parts
  else if t = 13 then .LanguageInformation parts
  else if t = 14 then .GroupAssociations parts
  else if t = 15 then .EventLog parts
  else if t = 16 then .PhysicalMemoryArray parts
  else if t = 17 then .MemoryDevice parts
  else if t = 18 then .MemoryErrorInformation32Bit parts
  else if t = 19 then .MemoryArrayMappedAddress parts
  else if t = 20 then .MemoryDeviceMappedAddress parts
  else if t = 21 then .BuiltInPointingDevice parts
  else if t = 22 then .PortableBattery parts
  else if t = 23 then .SystemReset parts
  else if t = 24 then .HardwareSecurity parts
  else if t = 25 then .SystemPowerControls parts
  else if t = 26 then .VoltageProbe parts
  else if t = 27 then .CoolingDevice parts
  else if t = 28 then .TemperatureProbe parts
  else if t = 29 then .ElectricalCurrentProbe parts
  else if t = 30 then .OutOfBandRemoteAccess parts
  else if t = 31 then .BisEntryPoint parts
  else if t = 32 then .SystemBootInformation parts
  else if t = 33 then .MemoryErrorInformation64Bit parts
  else if t = 34 then .ManagementDevice parts
  else if t = 35 then .ManagementDeviceComponent parts
  else if t = 36 then .ManagementDeviceThresholdData parts
  else if t = 37 then .MemoryChannel parts
  else if t = 38 then .IpmiDeviceInformation parts
  else if t = 39 then .SystemPowerSupply parts
  else if t = 40 then .AdditionalInformation parts
  else if t = 41 then .OnboardDevicesExtendedInformation parts
  else if t = 42 then .ManagementControllerHostInterface parts
  else if t = 43 then .TpmDevice parts
  else if t = 44 then .ProcessorAdditionalInformation parts
  else if t = 126 then .Inactive parts
  else if t = 127 then .EndOfTable parts
  else .Unknown parts

/-- `DefinedStruct::from(&SMBiosStructParts)`: dispatch on
`parts.header.struct_type()`. -/
def from_parts (parts : SMBiosStructParts) : DefinedStruct :=
  dispatch parts.header.struct_type parts

/-- The type discriminant reserved for each named variant (`none` for the
`Unknown` fallback), used to state the dispatch property. -/
def structTag : DefinedStruct → Option Nat
  | .Information _ => some 0
  | .SystemInformation _ => some 1
  | .BaseBoardInformation _ => some 2
  | .SystemChassisInformation _ => some 3
  | .ProcessorInformation _ => some 4
  | .MemoryControllerInformation _ => some 5
  | .MemoryModuleInformation _ => some 6
  | .CacheInformation _ => some 7
  | .PortConnectorInformation _ => some 8
  | .SystemSlot _ => some 9
  | .OnBoardDeviceInformation _ => some 10
  | .OemStrings _ => some 11
  | .SystemConfigurationOptions _ => some 12
  | .LanguageInformation _ => some 13
  | .GroupAssociations _ => some 14
  | .EventLog _ => some 15
  | .PhysicalMemoryArray _ => some 16
  | .MemoryDevice _ => some 17
  | .MemoryErrorInformation32Bit _ => some 18
  | .MemoryArrayMappedAddress _ => some 19
  | .MemoryDeviceMappedAddress _ => some 20
  | .BuiltInPointingDevice _ => some 21
  | .PortableBattery _ => some 22
  | .SystemReset _ => some 23
  | .HardwareSecurity _ => some 24
  | .SystemPowerControls _ => some 25
  | .VoltageProbe _ => some 26
  | .CoolingDevice _ => some 27
  | .TemperatureProbe _ => some 28
  | .ElectricalCurrentProbe _ => some 29
  | .OutOfBandRemoteAccess _ => some 30
  | .BisEntryPoint _ => some 31
  | .SystemBootInformation _ => some 32
  | .MemoryErrorInformation64Bit _ => some 33
  | .ManagementDevice _ => some 34
  | .ManagementDeviceComponent _ => some 35
  | .ManagementDeviceThresholdData _ => some 36
  | .MemoryChannel _ => some 37
  | .IpmiDeviceInformation _ => some 38
  | .SystemPowerSupply _ => some 39
  | .AdditionalInformation _ => some 40
  | .OnboardDevicesExtendedInformation _ => some 41
  | .ManagementControllerHostInterface _ => some 42
  | .TpmDevice _ => some 43
  | .ProcessorAdditionalInformation _ => some 44
  | .Inactive _ => some 126
  | .EndOfTable _ => some 127
  | .Unknown _ => none

end DefinedStruct

/-- `DefinedStructTable`: a vector of `DefinedStruct` built up by `add`
(which pushes at the end). -/
abbrev DefinedStructTable := List DefinedStruct

/-- `DefinedStructTable::new()`: the empty table. -/
def DefinedStructTable.new : DefinedStructTable := []

/-- `DefinedStructTable::add(elem)`: `Vec::push`, appending at the end. -/
def DefinedStructTable.add (table : DefinedStructTable) (elem : DefinedStruct) :
    DefinedStructTable :=
  table ++ [elem]

/-- `impl FromIterator<&SMBiosStructParts> for DefinedStructTable`: start
from the empty table and `add` the conversion of each element in order. -/
def DefinedStructTable.from_iter (l : List SMBiosStructParts) : DefinedStructTable :=
  l.foldl (fun table struct_parts => table.add (DefinedStruct.from_parts struct_parts))
    DefinedStructTable.new

/-- `impl IntoIterator for DefinedStructTable`: iterate the underlying
vector in order. -/
def DefinedStructTable.into_iter (table : DefinedStructTable) : List DefinedStruct :=
  table

lemma u32_checked_of_length_four (s : List Byte) (h : s.length = 4) :
    u32_from_le_bytes_checked s = some (u32_from_le_bytes s) := by
  rcases s with _ | ⟨b0, _ | ⟨b1, _ | ⟨b2, _ | ⟨b3, _ | ⟨b4, s⟩⟩⟩⟩⟩ <;>
    simp_all [u32_from_le_bytes_checked, u32_from_le_bytes]

lemma sliceGet_four_eight (raw : List Byte) (h : 8 ≤ raw.length) :
    sliceGet raw 4 8 = some ((raw.drop 4).take 4) := by
  unfold sliceGet
  rw [if_pos (by omega)]

lemma length_slice_four (raw : List Byte) (h : 8 ≤ raw.length) :
    ((raw.drop 4).take 4).length = 4 := by
  simp only [List.length_take, List.length_drop]
  omega

lemma is_valid_checked_of_short (raw : List Byte) (h : raw.length ≤ 8) :
    WinSMBiosData.is_valid_win_smbios_data_checked raw = some false := by
  unfold WinSMBiosData.is_valid_win_smbios_data_checked
  simp only [WinSMBiosData.SMBIOS_TABLE_DATA_OFFSET]
  rw [if_pos h]

lemma is_valid_checked_of_long (raw : List Byte) (h : 8 < raw.length) :
    WinSMBiosData.is_valid_win_smbios_data_checked raw =
      some (u32_from_le_bytes ((raw.drop 4).take 4) == raw.length - 8) := by
  unfold WinSMBiosData.is_valid_win_smbios_data_checked
  simp only [WinSMBiosData.SMBIOS_TABLE_DATA_OFFSET, WinSMBiosData.TABLE_DATA_LENGTH_OFFSET]
  rw [if_neg (by omega)]
  have h4 : (4 : Nat) + 4 = 8 := rfl
  rw [h4, sliceGet_four_eight raw (by omega)]
  simp only [u32_checked_of_length_four _ (length_slice_four raw (by omega))]

lemma is_valid_spec (raw : List Byte) :
    WinSMBiosData.is_valid_win_smbios_data raw = true ↔
      8 < raw.length ∧ u32_from_le_bytes ((raw.drop 4).take 4) = raw.length - 8 := by
  unfold WinSMBiosData.is_valid_win_smbios_data
  by_cases h : 8 < raw.length
  · rw [is_valid_checked_of_long raw h]
    simp [h]
  · rw [is_valid_checked_of_short raw (by omega)]
    simp [h]

lemma new_ok_iff (raw : List Byte) :
    (¬ ∃ e, WinSMBiosData.new raw = Except.error e) ↔
      WinSMBiosData.is_valid_win_smbios_data raw = true := by
  unfold WinSMBiosData.new
  by_cases h : WinSMBiosData.is_valid_win_smbios_data raw = true <;> simp [h]

lemma new_ok_elim (raw : List Byte) (w : WinSMBiosData)
    (h : WinSMBiosData.new raw = Except.ok w) :
    WinSMBiosData.is_valid_win_smbios_data raw = true ∧
      w = { windows_header := raw.take 8
            smbios_data :=
              ⟨raw.drop 8,
               some (WinSMBiosData.version_from_raw_header (raw.take 8))⟩ } := by
  unfold WinSMBiosData.new at h
  by_cases hv : WinSMBiosData.is_valid_win_smbios_data raw = true
  · rw [if_neg (by simp [hv])] at h
    refine ⟨hv, ?_⟩
    simp only [WinSMBiosData.SMBIOS_TABLE_DATA_OFFSET, SMBiosData.from_vec_and_version,
      Except.ok.injEq] at h
    exact h.symm
  · rw [if_pos (by simp [hv])] at h
    exact absurd h (by simp)

lemma getElem?_take_eight (raw : List Byte) (i : Nat) (hi : i < 8) :
    (raw.take 8)[i]? = raw[i]? :=
  List.getElem?_take_of_lt hi

lemma slice_take_eight (raw : List Byte) :
    ((raw.take 8).drop 4).take 4 = (raw.drop 4).take 4 := by
  have h1 : (raw.take 8).drop 4 = (raw.drop 4).take 4 := by
    have h2 := List.take_drop 4 4 raw
    norm_num at h2
    exact h2.symm
  rw [h1, List.take_of_length_le]
  simp only [List.length_take]
  omega

lemma table_data_length_of_ok (raw : List Byte) (h : 8 < raw.length) :
    WinSMBiosData.table_data_length
        { windows_header := raw.take 8
          smbios_data :=
            ⟨raw.drop 8, some (WinSMBiosData.version_from_raw_header (raw.take 8))⟩ } =
      some (u32_from_le_bytes ((raw.drop 4).take 4)) := by
  have hlen8 : (raw.take 8).length = 8 := by
    simp only [List.length_take]
    omega
  unfold WinSMBiosData.table_data_length
  simp only [WinSMBiosData.TABLE_DATA_LENGTH_OFFSET]
  have h4 : (4 : Nat) + 4 = 8 := rfl
  rw [h4, sliceGet_four_eight _ (by omega), slice_take_eight]
  simp only [u32_checked_of_length_four _ (length_slice_four raw (by omega))]

/-- C1: for every byte buffer, `is_valid_win_smbios_data` returns `true` if
and only if the buffer is strictly longer than 8 bytes and the little-endian
`u32` read from bytes 4..8 equals the buffer length minus 8. -/
theorem is_valid_win_smbios_data_iff (raw : List Byte) :
    WinSMBiosData.is_valid_win_smbios_data raw = true ↔
      8 < raw.length ∧ u32_from_le_bytes ((raw.drop 4).take 4) = raw.length - 8 :=
  is_valid_spec raw

/-- C9: `is_valid_win_smbios_data` is total: the panic-explicit embedding
never reaches a panic (`none`), because the early `false` return for buffers
of at most 8 bytes guarantees the slice read of bytes 4..8 and its 4-byte
conversion succeed. -/
theorem is_valid_win_smbios_data_total (raw : List Byte) :
    (WinSMBiosData.is_valid_win_smbios_data_checked raw).isSome = true := by
  by_cases h : 8 < raw.length
  · rw [is_valid_checked_of_long raw h]
    rfl
  · rw [is_valid_checked_of_short raw (by omega)]
    rfl

/-- C3 counterexample: on the 8-byte buffer of zeros, the buffer is not
shorter than 8 bytes and the declared payload length (0) equals the number of
remaining bytes (0), yet `new` returns an error — refuting the claim that an
error occurs exactly when the buffer is shorter than 8 bytes or the declared
length disagrees with the remaining bytes. -/
theorem new_error_iff_counterexample :
    isErr (WinSMBiosData.new [0, 0, 0, 0, 0, 0, 0, 0]) = true ∧
    ¬ (([0, 0, 0, 0, 0, 0, 0, 0] : List Byte).length < 8) ∧
    u32_from_le_bytes ((([0, 0, 0, 0, 0, 0, 0, 0] : List Byte).drop 4).take 4) =
      ([0, 0, 0, 0, 0, 0, 0, 0] : List Byte).length - 8 := by
  refine ⟨rfl, by decide, rfl⟩

/-- C3 amended: `new` returns an error exactly when the buffer has 8 bytes
or fewer, or the declared payload length (little-endian `u32` at bytes 4..8)
differs from the buffer length minus 8; otherwise it returns a constructed
`WinSMBiosData`. -/
theorem new_error_iff (raw : List Byte) :
    isErr (WinSMBiosData.new raw) = true ↔
      raw.length ≤ 8 ∨ u32_from_le_bytes ((raw.drop 4).take 4) ≠ raw.length - 8 := by
  have hspec := is_valid_spec raw
  unfold WinSMBiosData.new
  by_cases h : WinSMBiosData.is_valid_win_smbios_data raw = true
  · rw [if_neg (by simp [h])]
    obtain ⟨h1, h2⟩ := hspec.mp h
    simp only [isErr, Bool.false_eq_true, false_iff]
    push_neg
    exact ⟨by omega, h2⟩
  · rw [if_pos (by simp [h])]
    simp only [isErr, true_iff]
    by_contra hc
    push_neg at hc
    exact h (hspec.mpr ⟨by omega, hc.2⟩)

/-- C7: the three example buffers behave as specified: the 9-byte buffer
with declared length 1 is a valid envelope decoding to major 3, minor 3,
revision 0 and payload `[0xAB]`; the 3-byte buffer is invalid; the 9-byte
buffer with declared length 255 is invalid. -/
theorem example_buffers :
    WinSMBiosData.is_valid_win_smbios_data [0x00, 0x03, 0x03, 0x00, 0x01, 0x00, 0x00, 0x00, 0xAB] =
      true ∧
    WinSMBiosData.new [0x00, 0x03, 0x03, 0x00, 0x01, 0x00, 0x00, 0x00, 0xAB] =
      Except.ok
        { windows_header := [0x00, 0x03, 0x03, 0x00, 0x01, 0x00, 0x00, 0x00]
          smbios_data := { table := [0xAB], version := some ⟨3, 3, 0⟩ } } ∧
    WinSMBiosData.is_valid_win_smbios_data [0x00, 0x03, 0x03] = false ∧
    WinSMBiosData.is_valid_win_smbios_data [0x00, 0x03, 0x03, 0x00, 0xFF, 0x00, 0x00, 0x00, 0xAB] =
      false :=
  ⟨rfl, rfl, rfl, rfl⟩

/-- C4: every buffer accepted by `new` yields a version whose major, minor
and revision are bytes 1, 2 and 3 of the buffer, and the wrapped table
payload passed to `SMBiosData::from_vec_and_version` is exactly the bytes
from offset 8 to the end, with that version attached. -/
theorem new_version_and_payload (raw : List Byte) (w : WinSMBiosData)
    (h : WinSMBiosData.new raw = Except.ok w) :
    w.smbios_data.version =
      some { major := raw.getD 1 0, minor := raw.getD 2 0, revision := raw.getD 3 0 } ∧
    w.smbios_data.table = raw.drop 8 := by
  obtain ⟨hv, rfl⟩ := new_ok_elim raw w h
  have hlen : 8 < raw.length := ((is_valid_spec raw).mp hv).1
  refine ⟨?_, rfl⟩
  simp only [WinSMBiosData.version_from_raw_header, WinSMBiosData.SMBIOS_MAJOR_VERSION_OFFSET,
    WinSMBiosData.SMBIOS_MINOR_VERSION_OFFSET, WinSMBiosData.DMI_REVISION_OFFSET,
    List.getD_eq_getElem?_getD, getElem?_take_eight raw 1 (by omega),
    getElem?_take_eight raw 2 (by omega), getElem?_take_eight raw 3 (by omega)]

/-- C4 witness: `new_version_and_payload` applied to the concrete valid
buffer `[0, 3, 3, 0, 1, 0, 0, 0, 171]`. -/
theorem new_version_and_payload_witness :
    (WinSMBiosData.mk [0, 3, 3, 0, 1, 0, 0, 0]
          (SMBiosData.mk [171] (some ⟨3, 3, 0⟩))).smbios_data.version =
      some { major := ([0, 3, 3, 0, 1, 0, 0, 0, 171] : List Byte).getD 1 0
             minor := ([0, 3, 3, 0, 1, 0, 0, 0, 171] : List Byte).getD 2 0
             revision := ([0, 3, 3, 0, 1, 0, 0, 0, 171] : List Byte).getD 3 0 } ∧
    (WinSMBiosData.mk [0, 3, 3, 0, 1, 0, 0, 0]
          (SMBiosData.mk [171] (some ⟨3, 3, 0⟩))).smbios_data.table =
      ([0, 3, 3, 0, 1, 0, 0, 0, 171] : List Byte).drop 8 :=
  new_version_and_payload [0, 3, 3, 0, 1, 0, 0, 0, 171] _ rfl

/-- C8: every `WinSMBiosData` built by `new` stores a header of exactly 8
bytes, so the five header accessors never panic: they return the bytes of
the original input at offsets 0, 1, 2 and 3 and the little-endian `u32` at
bytes 4..8, the latter equal to the input length minus 8. -/
theorem accessors_never_panic (raw : List Byte) (w : WinSMBiosData)
    (h : WinSMBiosData.new raw = Except.ok w) :
    w.windows_header.length = 8 ∧
    w.used20_calling_method = raw[0]? ∧
    w.smbios_major_version = raw[1]? ∧
    w.smbios_minor_version = raw[2]? ∧
    w.dmi_revision = raw[3]? ∧
    w.table_data_length = some (u32_from_le_bytes ((raw.drop 4).take 4)) ∧
    w.table_data_length = some (raw.length - 8) := by
  obtain ⟨hv, rfl⟩ := new_ok_elim raw w h
  obtain ⟨hlen, hu32⟩ := (is_valid_spec raw).mp hv
  have htd := table_data_length_of_ok raw hlen
  refine ⟨?_, ?_, ?_, ?_, ?_, htd, ?_⟩
  · simp only [List.length_take]
    omega
  · exact getElem?_take_eight raw 0 (by omega)
  · exact getElem?_take_eight raw 1 (by omega)
  · exact getElem?_take_eight raw 2 (by omega)
  · exact getElem?_take_eight raw 3 (by omega)
  · rw [htd, hu32]

/-- C8 witness: `accessors_never_panic` applied to the concrete valid
buffer `[0, 3, 3, 0, 1, 0, 0, 0, 171]`. -/
theorem accessors_never_panic_witness :
    (WinSMBiosData.mk [0, 3, 3, 0, 1, 0, 0, 0]
          (SMBiosData.mk [171] (some ⟨3, 3, 0⟩))).windows_header.length = 8 ∧
    (WinSMBiosData.mk [0, 3, 3, 0, 1, 0, 0, 0]
          (SMBiosData.mk [171] (some ⟨3, 3, 0⟩))).used20_calling_method =
      ([0, 3, 3, 0, 1, 0, 0, 0, 171] : List Byte)[0]? ∧
    (WinSMBiosData.mk [0, 3, 3, 0, 1, 0, 0, 0]
          (SMBiosData.mk [171] (some ⟨3, 3, 0⟩))).smbios_major_version =
      ([0, 3, 3, 0, 1, 0, 0, 0, 171] : List Byte)[1]? ∧
    (WinSMBiosData.mk [0, 3, 3, 0, 1, 0, 0, 0]
          (SMBiosData.mk [171] (some ⟨3, 3, 0⟩))).smbios_minor_version =
      ([0, 3, 3, 0, 1, 0, 0, 0, 171] : List Byte)[2]? ∧
    (WinSMBiosData.mk [0, 3, 3, 0, 1, 0, 0, 0]
          (SMBiosData.mk [171] (some ⟨3, 3, 0⟩))).dmi_revision =
      ([0, 3, 3, 0, 1, 0, 0, 0, 171] : List Byte)[3]? ∧
    (WinSMBiosData.mk [0, 3, 3, 0, 1, 0, 0, 0]
          (SMBiosData.mk [171] (some ⟨3, 3, 0⟩))).table_data_length =
      some (u32_from_le_bytes
        ((([0, 3, 3, 0, 1, 0, 0, 0, 171] : List Byte).drop 4).take 4)) ∧
    (WinSMBiosData.mk [0, 3, 3, 0, 1, 0, 0, 0]
          (SMBiosData.mk [171] (some ⟨3, 3, 0⟩))).table_data_length =
      some (([0, 3, 3, 0, 1, 0, 0, 0, 171] : List Byte).length - 8) :=
  accessors_never_panic [0, 3, 3, 0, 1, 0, 0, 0, 171] _ rfl

/-- C10: for every successfully constructed `WinSMBiosData`, the
`raw_smbios_data` accessor returns exactly the first 8 bytes of the original
input — the windows envelope header, of length 8 — and not the wrapped table
payload, which is the remainder of the buffer. -/
theorem raw_smbios_data_is_header (raw : List Byte) (w : WinSMBiosData)
    (h : WinSMBiosData.new raw = Except.ok w) :
    w.raw_smbios_data = raw.take 8 ∧
    w.raw_smbios_data.length = 8 ∧
    w.smbios_data.table = raw.drop 8 := by
  obtain ⟨hv, rfl⟩ := new_ok_elim raw w h
  have hlen : 8 < raw.length := ((is_valid_spec raw).mp hv).1
  refine ⟨rfl, ?_, rfl⟩
  simp only [WinSMBiosData.raw_smbios_data, List.length_take]
  omega

/-- C10 witness: `raw_smbios_data_is_header` applied to the concrete valid
buffer `[0, 3, 3, 0, 1, 0, 0, 0, 171]`. -/
theorem raw_smbios_data_is_header_witness :
    (WinSMBiosData.mk [0, 3, 3, 0, 1, 0, 0, 0]
          (SMBiosData.mk [171] (some ⟨3, 3, 0⟩))).raw_smbios_data =
      ([0, 3, 3, 0, 1, 0, 0, 0, 171] : List Byte).take 8 ∧
    (WinSMBiosData.mk [0, 3, 3, 0, 1, 0, 0, 0]
          (SMBiosData.mk [171] (some ⟨3, 3, 0⟩))).raw_smbios_data.length = 8 ∧
    (WinSMBiosData.mk [0, 3, 3, 0, 1, 0, 0, 0]
          (SMBiosData.mk [171] (some ⟨3, 3, 0⟩))).smbios_data.table =
      ([0, 3, 3, 0, 1, 0, 0, 0, 171] : List Byte).drop 8 :=
  raw_smbios_data_is_header [0, 3, 3, 0, 1, 0, 0, 0, 171] _ rfl

/-- C2: the conversion from `SMBiosStructParts` to `DefinedStruct` is a
total function of the type discriminant: discriminants 0 through 44, 126 and
127 map to the named variant reserving exactly that discriminant, and every
other value maps to the `Unknown` variant. -/
theorem dispatch_exhaustive (parts : SMBiosStructParts) :
    DefinedStruct.structTag (DefinedStruct.from_parts parts) =
      (if parts.header.struct_type ≤ 44 ∨ parts.header.struct_type = 126 ∨
          parts.header.struct_type = 127
       then some parts.header.struct_type else none) := by
  have h : ∀ t : Nat,
      DefinedStruct.structTag (DefinedStruct.dispatch t parts) =
        (if t ≤ 44 ∨ t = 126 ∨ t = 127 then some t else none) := by
    intro t
    rcases Nat.lt_or_ge t 128 with ht | ht
    · interval_cases t <;> rfl
    · have hu : DefinedStruct.dispatch t parts = DefinedStruct.Unknown parts := by
        unfold DefinedStruct.dispatch
        rw [if_neg (show ¬ t = 0 by omega)]
        rw [if_neg (show ¬ t = 1 by omega)]
        rw [if_neg (show ¬ t = 2 by omega)]
        rw [if_neg (show ¬ t = 3 by omega)]
        rw [if_neg (show ¬ t = 4 by omega)]
        rw [if_neg (show ¬ t = 5 by omega)]
        rw [if_neg (show ¬ t = 6 by omega)]
        rw [if_neg (show ¬ t = 7 by omega)]
        rw [if_neg (show ¬ t = 8 by omega)]
        rw [if_neg (show ¬ t = 9 by omega)]
        rw [if_neg (show ¬ t = 10 by omega)]
        rw [if_neg (show ¬ t = 11 by omega)]
        rw [if_neg (show ¬ t = 12 by omega)]
        rw [if_neg (show ¬ t = 13 by omega)]
        rw [if_neg (show ¬ t = 14 by omega)]
        rw [if_neg (show ¬ t = 15 by omega)]
        rw [if_neg (show ¬ t = 16 by omega)]
        rw [if_neg (show ¬ t = 17 by omega)]
        rw [if_neg (show ¬ t = 18 by omega)]
        rw [if_neg (show ¬ t = 19 by omega)]
        rw [if_neg (show ¬ t = 20 by omega)]
        rw [if_neg (show ¬ t = 21 by omega)]
        rw [if_neg (show ¬ t = 22 by omega)]
        rw [if_neg (show ¬ t = 23 by omega)]
        rw [if_neg (show ¬ t = 24 by omega)]
        rw [if_neg (show ¬ t = 25 by omega)]
        rw [if_neg (show ¬ t = 26 by omega)]
        rw [if_neg (show ¬ t = 27 by omega)]
        rw [if_neg (show ¬ t = 28 by omega)]
        rw [if_neg (show ¬ t = 29 by omega)]
        rw [if_neg (show ¬ t = 30 by omega)]
        rw [if_neg (show ¬ t = 31 by omega)]
        rw [if_neg (show ¬ t = 32 by omega)]
        rw [if_neg (show ¬ t = 33 by omega)]
        rw [if_neg (show ¬ t = 34 by omega)]
        rw [if_neg (show ¬ t = 35 by omega)]
        rw [if_neg (show ¬ t = 36 by omega)]
        rw [if_neg (show ¬ t = 37 by omega)]
        rw [if_neg (show ¬ t = 38 by omega)]
        rw [if_neg (show ¬ t = 39 by omega)]
        rw [if_neg (show ¬ t = 40 by omega)]
        rw [if_neg (show ¬ t = 41 by omega)]
        rw [if_neg (show ¬ t = 42 by omega)]
        rw [if_neg (show ¬ t = 43 by omega)]
        rw [if_neg (show ¬ t = 44 by omega)]
        rw [if_neg (show ¬ t = 126 by omega)]
        rw [if_neg (show ¬ t = 127 by omega)]
      rw [hu, if_neg (by omega)]
      rfl
  exact h parts.header.struct_type

lemma foldl_add_eq (l : List SMBiosStructParts) (acc : DefinedStructTable) :
    l.foldl (fun table struct_parts => table.add (DefinedStruct.from_parts struct_parts)) acc =
      acc ++ l.map DefinedStruct.from_parts := by
  induction l generalizing acc with
  | nil => simp
  | cons p l ih =>
      rw [List.foldl_cons, ih]
      simp [DefinedStructTable.add]

/-- C5: the `DefinedStructTable` built by `FromIterator` from a sequence of
`SMBiosStructParts` is exactly the order-preserving image of the input under
the type dispatch, one element per input element, and iterating the table
yields that sequence unchanged. -/
theorem from_iter_faithful (l : List SMBiosStructParts) :
    DefinedStructTable.into_iter (DefinedStructTable.from_iter l) =
      l.map DefinedStruct.from_parts := by
  unfold DefinedStructTable.into_iter DefinedStructTable.from_iter DefinedStructTable.new
  rw [foldl_add_eq]
  rfl

/-- C6: envelope decoding and type dispatch are deterministic: equal byte
buffers produce equal `new` results and equal struct parts produce equal
dispatched variants. -/
theorem decode_deterministic (raw1 raw2 : List Byte) (p1 p2 : SMBiosStructParts)
    (h1 : raw1 = raw2) (h2 : p1 = p2) :
    WinSMBiosData.new raw1 = WinSMBiosData.new raw2 ∧
    DefinedStruct.from_parts p1 = DefinedStruct.from_parts p2 := by
  subst h1
  subst h2
  exact ⟨rfl, rfl⟩

/-- C6 witness: `decode_deterministic` applied to a concrete buffer and a
concrete structure span. -/
theorem decode_deterministic_witness :
    WinSMBiosData.new [0, 3, 3, 0, 1, 0, 0, 0, 171] =
      WinSMBiosData.new [0, 3, 3, 0, 1, 0, 0, 0, 171] ∧
    DefinedStruct.from_parts ⟨⟨127, 4, 0⟩, [127, 4, 0, 0]⟩ =
      DefinedStruct.from_parts ⟨⟨127, 4, 0⟩, [127, 4, 0, 0]⟩ :=
  decode_deterministic [0, 3, 3, 0, 1, 0, 0, 0, 171] [0, 3, 3, 0, 1, 0, 0, 0, 171]
    ⟨⟨127, 4, 0⟩, [127, 4, 0, 0]⟩ ⟨⟨127, 4, 0⟩, [127, 4, 0, 0]⟩ rfl rfl

end SmbiosLib
